import Mathlib

/-
Verification of the dynamic memory manager in src/memmgr.c against its design
specification.  The heap is modelled as a write history of 64-bit words at byte
addresses; every heap access performed by memmgr.c is an aligned 8-byte word
access, so words at distinct addresses never overlap in any state considered
here.  Each C function of the allocator is translated statement by statement
into a Lean function over the global allocator state.
-/

set_option maxRecDepth 100000

namespace Memmgr

/-- The word type of the heap (TYPE = unsigned long) holds 64-bit values. -/
def WORD_MOD : Nat := 2 ^ 64

/-- ALLOC: block allocated flag (memmgr.c line 117). -/
def ALLOC : Nat := 1

/-- FREE: block free flag (memmgr.c line 118). -/
def FREE : Nat := 0

/-- STATUS(v) = v and STATUS_MASK = v and 0x7; for a natural number this is v % 8. -/
def STATUS (v : Nat) : Nat := v % 8

/-- SIZE(v) = v and SIZE_MASK: clearing the three low bits of a 64-bit word is
rounding down to a multiple of 8. -/
def SIZE (v : Nat) : Nat := v / 8 * 8

/-- Bitwise or, structurally recursive on a bit-count fuel so that the kernel can
evaluate it on literals; 64 bits of fuel cover every 64-bit word. -/
def orAux : Nat → Nat → Nat → Nat
  | 0, _, _ => 0
  | f + 1, n, m =>
    if n = 0 then m
    else if m = 0 then n
    else 2 * orAux f (n / 2) (m / 2) + (if n % 2 = 1 ∨ m % 2 = 1 then 1 else 0)

/-- PACK(size, status): bitwise or of size and status into a boundary tag
(memmgr.c line 133). -/
def PACK (size status : Nat) : Nat := orAux 64 size status

/-- WSIZE = 8: byte width of a heap word (memmgr.c line 146). -/
def WSIZE : Nat := 8

/-- DSIZE = 16: two heap words (memmgr.c line 147). -/
def DSIZE : Nat := 16

/-- CHUNKSIZE = 1 shifted left by 16 = 65536: minimal data segment allocation
unit (memmgr.c line 93). -/
def CHUNKSIZE : Nat := 65536

/-- Modelled from the spec: MINBLOCKSIZE comes from memmgr.h, which is not under
src; the spec and the BS macro of memmgr.c fix the minimal block size at 32. -/
def MINBLOCKSIZE : Nat := 32

/-- Modelled from the spec: ALIGN comes from memmgr.h, which is not under src;
per the spec, round_up aligns to the machine word size of 8 bytes. -/
def ALIGN (sz : Nat) : Nat := (sz + 7) / 8 * 8

/-- Heap memory as a write history of words at byte addresses.  Modelled from
the spec: the data segment provider hands out a clean region, so a word that was
never written reads as 0. -/
abbrev Mem := List (Nat × Nat)

/-- GET(p): read the word at address p; the most recent write wins and an
unwritten word reads 0 (clean region). -/
def GET : Mem → Nat → Nat
  | [], _ => 0
  | (a, v) :: m, p => if p = a then v else GET m p

/-- PUT(p, v): write word v at address p, truncated to 64 bits. -/
def PUT (m : Mem) (p v : Nat) : Mem := (p, v % WORD_MOD) :: m

/-- GET_SIZE(p): size field of the tag stored at p (memmgr.c line 139). -/
def GET_SIZE (m : Mem) (p : Nat) : Nat := SIZE (GET m p)

/-- GET_STATUS(p): status field of the tag stored at p (memmgr.c line 140). -/
def GET_STATUS (m : Mem) (p : Nat) : Nat := STATUS (GET m p)

/-- HDR2FTR(p) = p + GET_SIZE(p) - TYPE_SIZE (memmgr.c line 130). -/
def HDR2FTR (m : Mem) (p : Nat) : Nat := p + GET_SIZE m p - WSIZE

/-- FTR2HDR(p) = p - GET_SIZE(p) + TYPE_SIZE (memmgr.c line 131).  All states
evaluated in this development keep the subtraction in range. -/
def FTR2HDR (m : Mem) (p : Nat) : Nat := p - GET_SIZE m p + WSIZE

/-- Modelled from the spec: FTR comes from memmgr.h, which is not under src; it
maps the header address of a block to the address of its footer, the last word
of the block, consistent with HDR2FTR of memmgr.c and the documented block
format. -/
def FTR (m : Mem) (p : Nat) : Nat := p + GET_SIZE m p - WSIZE

/-- NEXT_LIST_GET(p): the next pointer stored in the first payload word of a
free block (memmgr.c line 148). -/
def NEXT_LIST_GET (m : Mem) (p : Nat) : Nat := GET m (p + WSIZE)

/-- FreelistPolicy with its two values fp_Implicit and fp_Explicit; the enum
lives in memmgr.h, which is not under src.  Modelled from the spec: two
interchangeable strategies selected once at initialization. -/
inductive FreelistPolicy where
  | fp_Implicit
  | fp_Explicit
deriving DecidableEq

/-- The global allocator state of memmgr.c: heap memory, the logical bounds
heap_start and heap_end, the physical segment break ds_heap_brk, the capacity of
the data segment provider (modelled), and the policy chosen at mm_init. -/
structure MM where
  mem : Mem
  heap_start : Nat
  heap_end : Nat
  ds_heap_brk : Nat
  limit : Nat
  policy : FreelistPolicy
deriving DecidableEq

/-- Modelled from the spec: ds_sbrk of the dataseg module (not under src)
extends the region by n bytes and returns the old end-of-region pointer, or a
failure value when the provider cannot grow; the model gives the provider a
fixed capacity limit. -/
def ds_sbrk (s : MM) (n : Nat) : Option (Nat × MM) :=
  if s.ds_heap_brk + n ≤ s.limit then
    some (s.ds_heap_brk, { s with ds_heap_brk := s.ds_heap_brk + n })
  else none

/-- mm_init, success path (memmgr.c lines 217-278): record the policy, obtain
one CHUNKSIZE segment from the provider starting at address seg, write the
initial sentinel footer at heap_start - WSIZE, a zero tag at heap_start, the
end sentinel at heap_end, then format the span between heap_start and heap_end
as one free block by writing its header and footer.  The panic paths
(unsupported policy, dirty or missing segment, failed growth) terminate the
process and yield no state. -/
def mm_init (seg lim : Nat) (fp : FreelistPolicy) : MM :=
  let heap_start := seg + 4 * WSIZE
  let heap_end := seg + CHUNKSIZE - 2 * WSIZE
  let m1 := PUT [] (heap_start - WSIZE) (PACK 0 ALLOC)
  let m2 := PUT m1 heap_start (PACK 0 ALLOC)
  let m3 := PUT m2 heap_end (PACK 0 ALLOC)
  let fbs := heap_end - heap_start
  let m4 := PUT m3 heap_start (PACK fbs FREE)
  let m5 := PUT m4 (heap_end - WSIZE) (PACK fbs FREE)
  { mem := m5, heap_start := heap_start, heap_end := heap_end,
    ds_heap_brk := seg + CHUNKSIZE, limit := lim, policy := fp }

/-- Loop of bf_get_free_block_implicit (memmgr.c lines 294-305): scan from bp
while bp < heap_end; return the current block when its status is FREE and its
size is at least the request; otherwise step to NEXT_PTR(bp + block_size), that
is bp + block_size + WSIZE.  The fuel argument only bounds the iteration count;
the wrapper passes more fuel than any scan can consume, because every step
advances bp by at least WSIZE. -/
def bf_loop_implicit (s : MM) (size : Nat) : Nat → Nat → Option Nat
  | 0, _ => none
  | f + 1, bp =>
    if bp < s.heap_end then
      if GET_STATUS s.mem bp = FREE ∧ size ≤ GET_SIZE s.mem bp then some bp
      else bf_loop_implicit s size f (bp + GET_SIZE s.mem bp + WSIZE)
    else none

/-- bf_get_free_block_implicit (memmgr.c lines 285-307). -/
def bf_get_free_block_implicit (s : MM) (size : Nat) : Option Nat :=
  bf_loop_implicit s size (s.heap_end - s.heap_start + WSIZE) s.heap_start

/-- Loop of bf_get_free_block_explicit (memmgr.c lines 323-331): starting from
heap_start, while bp is not NULL, read the block size from the word at
HDR2FTR(bp) and return bp when that size is at least the request, otherwise
follow NEXT_LIST_GET(bp).  The C loop can fail to terminate on a cyclic pointer
chain; the fuel bounds the traversal and every scenario in this development
terminates well inside it. -/
def bf_loop_explicit (s : MM) (size : Nat) : Nat → Nat → Option Nat
  | 0, _ => none
  | f + 1, bp =>
    if bp ≠ 0 then
      if size ≤ SIZE (GET s.mem (HDR2FTR s.mem bp)) then some bp
      else bf_loop_explicit s size f (NEXT_LIST_GET s.mem bp)
    else none

/-- bf_get_free_block_explicit (memmgr.c lines 314-333). -/
def bf_get_free_block_explicit (s : MM) (size : Nat) : Option Nat :=
  bf_loop_explicit s size (s.heap_end - s.heap_start + WSIZE) s.heap_start

/-- coalesce (memmgr.c lines 385-408), translated statement by statement; each
PUT address is computed against the memory as mutated so far, exactly as the C
statements execute in order.  Returns the resulting block pointer and state. -/
def coalesce (s : MM) (bp : Nat) : Nat × MM :=
  let prev_alloc := GET_STATUS s.mem (FTR2HDR s.mem (bp - WSIZE))
  let next_alloc := GET_STATUS s.mem (HDR2FTR s.mem (bp + WSIZE))
  let size := GET_SIZE s.mem (HDR2FTR s.mem bp)
  if prev_alloc ≠ 0 ∧ next_alloc ≠ 0 then
    (bp, s)
  else if prev_alloc ≠ 0 ∧ next_alloc = 0 then
    let size2 := size + GET_SIZE s.mem (HDR2FTR s.mem (bp + WSIZE))
    let m1 := PUT s.mem (HDR2FTR s.mem bp) (PACK size2 FREE)
    let m2 := PUT m1 (FTR2HDR m1 (bp + size2 - WSIZE)) (PACK size2 FREE)
    (bp, { s with mem := m2 })
  else if prev_alloc = 0 ∧ next_alloc ≠ 0 then
    let size2 := size + GET_SIZE s.mem (HDR2FTR s.mem (bp - WSIZE))
    let m1 := PUT s.mem (FTR2HDR s.mem (bp - WSIZE)) (PACK size2 FREE)
    let m2 := PUT m1 (HDR2FTR m1 bp) (PACK size2 FREE)
    (bp - WSIZE, { s with mem := m2 })
  else
    let size2 := size + GET_SIZE s.mem (HDR2FTR s.mem (bp - WSIZE))
                      + GET_SIZE s.mem (HDR2FTR s.mem (bp + WSIZE))
    let m1 := PUT s.mem (FTR2HDR s.mem (bp - WSIZE)) (PACK size2 FREE)
    let m2 := PUT m1 (FTR2HDR m1 (bp + size2 - WSIZE)) (PACK size2 FREE)
    (bp - WSIZE, { s with mem := m2 })

/-- extend_heap (memmgr.c lines 372-383): round the word count up to an even
number of words, request that many bytes from ds_sbrk, then perform the three
PUT statements of the source (whose addresses read the memory as mutated so
far) and finish with coalesce on the old break pointer. -/
def extend_heap (s : MM) (words : Nat) : Option (Nat × MM) :=
  let size := if words % 2 = 1 then (words + 1) * WSIZE else words * WSIZE
  match ds_sbrk s size with
  | none => none
  | some (bp, s1) =>
    let m1 := PUT s1.mem (HDR2FTR s1.mem bp) (PACK size FREE)
    let m2 := PUT m1 (FTR2HDR m1 (bp + size - WSIZE)) (PACK size FREE)
    let m3 := PUT m2 (HDR2FTR m2 (bp + size)) (PACK 0 ALLOC)
    some (coalesce { s1 with mem := m3 } bp)

/-- mm_malloc (memmgr.c lines 336-369): return NULL for size 0; compute
asize = MAX(ALIGN(size) + DSIZE, MINBLOCKSIZE); call
bf_get_free_block_implicit (the source hardcodes the implicit scanner
regardless of the selected policy); on a hit either split (writing the
allocated header, then the header and the footer of the remainder, the footer
address being computed after the remainder header was written) or allocate the
whole block by rewriting only its header; on a miss, extend the heap by
MAX(asize, CHUNKSIZE) / WSIZE words and, when that succeeds, write the header
and footer of an asize block at the returned pointer. -/
def mm_malloc (s : MM) (size : Nat) : Option Nat × MM :=
  if size = 0 then (none, s)
  else
    let asize := max (ALIGN size + DSIZE) MINBLOCKSIZE
    match bf_get_free_block_implicit s asize with
    | some bp =>
      let actual := GET_SIZE s.mem bp
      if MINBLOCKSIZE ≤ actual - asize then
        let m1 := PUT s.mem bp (PACK asize ALLOC)
        let m2 := PUT m1 (bp + asize) (PACK (actual - asize) FREE)
        let m3 := PUT m2 (FTR m2 (bp + asize)) (PACK (actual - asize) FREE)
        (some (bp + WSIZE), { s with mem := m3 })
      else
        let m1 := PUT s.mem bp (PACK actual ALLOC)
        (some (bp + WSIZE), { s with mem := m1 })
    | none =>
      match extend_heap s (max asize CHUNKSIZE / WSIZE) with
      | some (bp, s1) =>
        let m1 := PUT s1.mem bp (PACK asize ALLOC)
        let m2 := PUT m1 (FTR m1 bp) (PACK asize ALLOC)
        (some (bp + WSIZE), { s1 with mem := m2 })
      | none => (none, s)

/-- mm_free (memmgr.c lines 465-481): the entire body of the function is
commented out in the source; the call returns without touching the heap. -/
def mm_free (s : MM) (ptr : Nat) : MM := s

/-- mm_realloc (memmgr.c lines 431-462): the entire body of the function is
commented out in the source; the call returns NULL and leaves the heap
untouched. -/
def mm_realloc (s : MM) (ptr size : Nat) : Option Nat × MM := (none, s)

/-- mm_calloc (memmgr.c lines 411-428): the malloc-and-memset body is commented
out in the source; the call returns NULL and leaves the heap untouched. -/
def mm_calloc (s : MM) (nmemb size : Nat) : Option Nat × MM := (none, s)

/-- Outcome of mm_check (memmgr.c lines 490-575).  mismatch models the
mm_panic call on a header and footer disagreement, which terminates the
process; sizeZero models the size-0 warning that aborts the traversal and lets
the function return normally; finished models falling out of the walk, with the
flag recording whether the walk ended exactly at heap_end (the coherent case,
since surviving the walk means no errors were counted). -/
inductive CheckResult where
  | mismatch (p : Nat)
  | sizeZero (p : Nat)
  | finished (coherent : Bool)
deriving DecidableEq

/-- True exactly when the checker outcome is the process-terminating one. -/
def CheckResult.isPanic : CheckResult → Bool
  | .mismatch _ => true
  | _ => false

/-- Walk of mm_check (memmgr.c lines 525-570): from p while p < heap_end, read
the header tag, read the footer tag at p + size - TYPE_SIZE, terminate the
process when the two tags disagree in size or status, advance p by size, and
abort the traversal with a warning when size is 0.  The fuel only bounds the
iteration count; the wrapper passes more fuel than any walk can consume. -/
def mm_check_loop (s : MM) : Nat → Nat → CheckResult
  | 0, _ => .finished false
  | f + 1, p =>
    if p < s.heap_end then
      let size := SIZE (GET s.mem p)
      let status := STATUS (GET s.mem p)
      let fsize := SIZE (GET s.mem (p + size - WSIZE))
      let fstatus := STATUS (GET s.mem (p + size - WSIZE))
      if size ≠ fsize ∨ status ≠ fstatus then .mismatch p
      else if size = 0 then .sizeZero p
      else mm_check_loop s f (p + size)
    else .finished (p == s.heap_end)

/-- mm_check (memmgr.c lines 490-575): run the walk from heap_start. -/
def mm_check (s : MM) : CheckResult :=
  mm_check_loop s (s.heap_end - s.heap_start + WSIZE) s.heap_start

/-- Base address of the data segment used in the concrete scenarios; a page
aligned address comfortably above 0 so that every pointer subtraction in the
traces stays in range, as it does for the real process addresses. -/
def SEG : Nat := 1048576

/-- State right after mm_init with the implicit policy and a provider that has
no room to grow beyond the initial chunk. -/
def sInitNoGrow : MM := mm_init SEG (SEG + CHUNKSIZE) FreelistPolicy.fp_Implicit

/-- State right after mm_init with the implicit policy and a provider that can
grow by one more chunk. -/
def sInitGrow : MM := mm_init SEG (SEG + 2 * CHUNKSIZE) FreelistPolicy.fp_Implicit

/-- State after mm_init (implicit policy) followed by mm_malloc(1). -/
def afterMalloc1 : MM := (mm_malloc sInitNoGrow 1).2

/-- State right after mm_init with the explicit policy and a provider that has
no room to grow. -/
def sExplInit : MM := mm_init SEG (SEG + CHUNKSIZE) FreelistPolicy.fp_Explicit

/-- State after mm_init (explicit policy) followed by mm_malloc(1). -/
def sExpl1 : MM := (mm_malloc sExplInit 1).2

/-- A concrete coherent heap holding a free block of size 64 at address 32, an
allocated block of size 32 at address 96 and a free block of size 32 at address
128, each with matching header and footer. -/
def c2heap : MM :=
  { mem := [(32, 64), (88, 64), (96, 33), (120, 33), (128, 32), (152, 32)],
    heap_start := 32, heap_end := 160, ds_heap_brk := 168, limit := 168,
    policy := FreelistPolicy.fp_Implicit }

/-- A concrete coherent heap holding a single allocated block of size 32 at
address 32 with matching header and footer. -/
def c2heapB : MM :=
  { mem := [(32, 33), (56, 33)],
    heap_start := 32, heap_end := 64, ds_heap_brk := 72, limit := 72,
    policy := FreelistPolicy.fp_Explicit }

/-- The initialized heap with the header word at heap_start overwritten by the
tag (size 0, ALLOCATED): a corrupted state whose first block has size 0 and
whose footer position p + 0 - WSIZE falls on the initial sentinel footer, which
carries the same tag, so the checker reaches its size-0 branch. -/
def s10 : MM :=
  { sInitNoGrow with mem := PUT sInitNoGrow.mem (SEG + 32) (PACK 0 ALLOC) }

/-- One non-matching step of the implicit scan: when the current block is not
returned, the scan moves to bp + block_size + WSIZE. -/
theorem bf_loop_implicit_step (s : MM) (size f bp : Nat) (h1 : bp < s.heap_end)
    (h2 : ¬(GET_STATUS s.mem bp = FREE ∧ size ≤ GET_SIZE s.mem bp)) :
    bf_loop_implicit s size (f + 1) bp
      = bf_loop_implicit s size f (bp + GET_SIZE s.mem bp + WSIZE) := by
  simp only [bf_loop_implicit, if_pos h1, if_neg h2]

/-- A matching step of the implicit scan returns the current block. -/
theorem bf_loop_implicit_hit (s : MM) (size f bp : Nat) (h1 : bp < s.heap_end)
    (h2 : GET_STATUS s.mem bp = FREE ∧ size ≤ GET_SIZE s.mem bp) :
    bf_loop_implicit s size (f + 1) bp = some bp := by
  simp only [bf_loop_implicit, if_pos h1, if_pos h2]

/-- Over a stretch of k zero words below heap_end, the implicit scan advances
by WSIZE per word without returning: a zero word decodes to a free block of
size 0, which can never satisfy a positive request. -/
theorem bf_loop_implicit_skip (s : MM) (size : Nat) (hs : 0 < size) :
    ∀ k f bp, (∀ i, i < k → GET s.mem (bp + 8 * i) = 0) → bp + 8 * k ≤ s.heap_end →
      bf_loop_implicit s size (f + k) bp = bf_loop_implicit s size f (bp + 8 * k) := by
  intro k
  induction k with
  | zero =>
    intro f bp _ _
    simp
  | succ n ih =>
    intro f bp hz hb
    have hlt : bp < s.heap_end := by omega
    have h0 : GET s.mem bp = 0 := by simpa using hz 0 (Nat.succ_pos n)
    have hcond : ¬(GET_STATUS s.mem bp = FREE ∧ size ≤ GET_SIZE s.mem bp) := by
      intro hc
      have h2 := hc.2
      rw [GET_SIZE, h0] at h2
      norm_num [SIZE] at h2
      omega
    rw [show f + (n + 1) = (f + n) + 1 from by omega]
    rw [bf_loop_implicit_step s size (f + n) bp hlt hcond]
    rw [show bp + GET_SIZE s.mem bp + WSIZE = bp + 8 from by
      rw [GET_SIZE, h0]; norm_num [SIZE, WSIZE]]
    have hz2 : ∀ i, i < n → GET s.mem (bp + 8 + 8 * i) = 0 := by
      intro i hi
      have h := hz (i + 1) (by omega)
      rwa [show bp + 8 * (i + 1) = bp + 8 + 8 * i from by ring] at h
    have hb2 : bp + 8 + 8 * n ≤ s.heap_end := by omega
    rw [ih f (bp + 8) hz2 hb2]
    rw [show bp + 8 + 8 * n = bp + 8 * (n + 1) from by ring]

/-- The memory of sExpl1 written out: the three writes of the splitting
mm_malloc(1) on top of the five writes of mm_init. -/
theorem sExpl1_mem_eq :
    sExpl1.mem = [(1114088, 65456), (1048640, 65456), (1048608, 33),
                  (1114088, 65488), (1048608, 65488), (1114096, 1),
                  (1048608, 1), (1048600, 1)] := by decide

/-- Every word of the free-block payload area scanned by the buggy implicit
walk of sExpl1 reads 0: the eight writes all lie outside the stretch. -/
theorem sExpl1_zeros : ∀ i, i < 8180 → GET sExpl1.mem (1048648 + 8 * i) = 0 := by
  intro i hi
  rw [sExpl1_mem_eq]
  have h1 : ¬(1048648 + 8 * i = 1114088) := by omega
  have h2 : ¬(1048648 + 8 * i = 1048640) := by omega
  have h3 : ¬(1048648 + 8 * i = 1048608) := by omega
  have h4 : ¬(1048648 + 8 * i = 1114096) := by omega
  have h5 : ¬(1048648 + 8 * i = 1048600) := by omega
  simp only [GET, if_neg h1, if_neg h2, if_neg h3, if_neg h4, if_neg h5]

/-- When the implicit search returns a block, mm_malloc returns the payload
pointer one word past that block, whether or not it splits. -/
theorem mm_malloc_found (s : MM) (size asize bp : Nat)
    (h0 : ¬size = 0)
    (ha : max (ALIGN size + DSIZE) MINBLOCKSIZE = asize)
    (hbf : bf_get_free_block_implicit s asize = some bp) :
    (mm_malloc s size).1 = some (bp + WSIZE) := by
  simp only [mm_malloc, if_neg h0]
  rw [ha, hbf]
  by_cases hsp : MINBLOCKSIZE ≤ GET_SIZE s.mem bp - asize
  · simp only [if_pos hsp]
  · simp only [if_neg hsp]

/-- On sExpl1 the implicit scan skips the allocated block at heap_start, walks
word by word through the zero payload of the free block (the stepping bug
bp + block_size + WSIZE lands it off the block grid), and finally returns the
address 1114088 = SEG + 65512, which is the footer word of the free block, not
a block header. -/
theorem sExpl1_implicit_search :
    bf_get_free_block_implicit sExpl1 48 = some 1114088 := by
  unfold bf_get_free_block_implicit
  rw [show sExpl1.heap_end - sExpl1.heap_start + WSIZE = 65495 + 1 from by decide]
  rw [show sExpl1.heap_start = 1048608 from by decide]
  rw [bf_loop_implicit_step sExpl1 48 65495 1048608 (by decide) (by decide)]
  rw [show 1048608 + GET_SIZE sExpl1.mem 1048608 + WSIZE = 1048648 from by decide]
  rw [show (65495 : Nat) = 57315 + 8180 from by norm_num]
  rw [bf_loop_implicit_skip sExpl1 48 (by norm_num) 8180 57315 1048648 sExpl1_zeros
    (by decide)]
  rw [show 1048648 + 8 * 8180 = 1114088 from by norm_num]
  rw [show (57315 : Nat) = 57314 + 1 from by norm_num]
  exact bf_loop_implicit_hit sExpl1 48 57314 1114088 (by decide) (by decide)

/-- C1: falsified on the code.  After mm_init and one splitting mm_malloc(1)
the allocated block at SEG + 32 has header (size 32, ALLOCATED) while its
footer word at SEG + 56 was never written and still reads 0, decoding to
(size 0, FREE): the split path of mm_malloc rewrites the allocated header but
not the allocated footer, and mm_check on the resulting state takes its
process-terminating header/footer-mismatch branch on the very first block. -/
theorem c1_malloc_split_breaks_tag_symmetry :
    (mm_malloc sInitNoGrow 1).1 = some (SEG + 40) ∧
    GET_SIZE afterMalloc1.mem (SEG + 32) = 32 ∧
    GET_STATUS afterMalloc1.mem (SEG + 32) = ALLOC ∧
    GET afterMalloc1.mem (SEG + 32 + 32 - WSIZE) = 0 ∧
    mm_check afterMalloc1 = CheckResult.mismatch (SEG + 32) := by
  decide

/-- C2: falsified on the code.  On a coherent heap holding a FREE block of
size 64 at 32, an ALLOCATED block at 96 and a FREE block of size 32 at 128, a
request of 32 makes the implicit locator return the first qualifying block
(size 64) although a strictly smaller qualifying FREE block (size 32) exists,
so the selection is first fit, not best fit; and on a heap whose only block is
ALLOCATED the explicit locator returns that allocated block, since it never
inspects the status bits. -/
theorem c2_locator_first_fit_and_ignores_status :
    bf_get_free_block_implicit c2heap 32 = some 32 ∧
    GET_STATUS c2heap.mem 32 = FREE ∧ GET_SIZE c2heap.mem 32 = 64 ∧
    GET_STATUS c2heap.mem 128 = FREE ∧ GET_SIZE c2heap.mem 128 = 32 ∧
    bf_get_free_block_explicit c2heapB 32 = some 32 ∧
    GET_STATUS c2heapB.mem 32 = ALLOC := by
  decide

/-- C3: falsified on the code.  mm_free of the payload pointer returned by the
preceding mm_malloc(1) leaves the state completely unchanged: the block header
still decodes ALLOCATED, nothing is marked FREE and nothing is coalesced,
because the whole body of mm_free is commented out in the source. -/
theorem c3_free_leaves_heap_untouched :
    mm_free afterMalloc1 (SEG + 40) = afterMalloc1 ∧
    GET_STATUS (mm_free afterMalloc1 (SEG + 40)).mem (SEG + 32) = ALLOC := by
  decide

/-- C4: falsified on the code.  With the provider able to grow by one chunk, a
request of 65489 bytes (needed size 65512) finds no free block, grows the
segment, and then carves the allocation directly at the pointer returned by
extend_heap/coalesce: the returned payload SEG + 65536 lies beyond the logical
heap_end SEG + 65520, which is never updated, and re-running the free-block
search once more on the grown state returns not-found, so the allocation was
not carved from a block returned by a second search as the claim states. -/
theorem c4_growth_path_skips_retry :
    (mm_malloc sInitGrow 65489).1 = some (SEG + 65536) ∧
    (mm_malloc sInitGrow 65489).2.heap_end = SEG + 65520 ∧
    (mm_malloc sInitGrow 65489).2.ds_heap_brk = SEG + 2 * CHUNKSIZE ∧
    bf_get_free_block_implicit (mm_malloc sInitGrow 65489).2 65512 = none := by
  decide

/-- C5: falsified on the code.  In the reachable state sExpl1 (mm_init with
fp_Explicit, then mm_malloc(1)) the explicit locator finds no block for the
needed size 48 and the provider cannot grow, so an allocator that used the
selected explicit strategy would return NULL; yet mm_malloc(32) succeeds,
because line 347 of memmgr.c hardcodes bf_get_free_block_implicit and ignores
the policy chosen at initialization. -/
theorem c5_explicit_policy_ignored :
    sExpl1.policy = FreelistPolicy.fp_Explicit ∧
    sExpl1.limit = sExpl1.ds_heap_brk ∧
    bf_get_free_block_explicit sExpl1 48 = none ∧
    (mm_malloc sExpl1 32).1 = some (SEG + 65520) := by
  refine ⟨by decide, by decide, by decide, ?_⟩
  rw [mm_malloc_found sExpl1 32 48 1114088 (by decide) (by decide)
    sExpl1_implicit_search]
  decide

/-- C6: falsified on the code.  mm_realloc(NULL, 16) returns NULL and changes
nothing, while mm_malloc(16) on the same state returns a payload pointer, so
resize(null, n) is not equivalent to allocate(n): the whole body of mm_realloc
is commented out and the function always returns NULL. -/
theorem c6_realloc_always_null :
    (mm_realloc sInitNoGrow 0 16).1 = none ∧
    (mm_realloc sInitNoGrow 0 16).2 = sInitNoGrow ∧
    (mm_malloc sInitNoGrow 16).1 = some (SEG + 40) := by
  decide

/-- C7: falsified on the code.  mm_calloc(1, 16) returns NULL although
mm_malloc(1 * 16) on the same state succeeds, so allocate_zeroed does not
behave as allocate(count * size) with a zeroed payload: the malloc-and-memset
body of mm_calloc is commented out and the function always returns NULL. -/
theorem c7_calloc_always_null :
    (mm_calloc sInitNoGrow 1 16).1 = none ∧
    (mm_calloc sInitNoGrow 1 16).2 = sInitNoGrow ∧
    (mm_malloc sInitNoGrow 16).1 = some (SEG + 40) := by
  decide

/-- C8: confirmed.  mm_malloc returns the null result, with the state
unchanged, both for a request of size 0 and when the free-block search finds
nothing and the provider cannot extend the segment (extend_heap fails); the
out-of-memory path returns NULL instead of terminating the process. -/
theorem c8_zero_and_oom_return_null (s : MM) (n : Nat)
    (h1 : bf_get_free_block_implicit s (max (ALIGN n + DSIZE) MINBLOCKSIZE) = none)
    (h2 : extend_heap s (max (max (ALIGN n + DSIZE) MINBLOCKSIZE) CHUNKSIZE / WSIZE)
      = none) :
    mm_malloc s 0 = (none, s) ∧ (n ≠ 0 → mm_malloc s n = (none, s)) := by
  constructor
  · rfl
  · intro hn
    simp only [mm_malloc, if_neg hn]
    rw [h1, h2]

/-- Witness for C8: on the initialized heap with a provider that cannot grow,
the hypotheses hold for the request 65489 and mm_malloc returns NULL both for
size 0 and for the out-of-memory request. -/
theorem c8_zero_and_oom_return_null_witness :
    mm_malloc sInitNoGrow 0 = (none, sInitNoGrow) ∧
    mm_malloc sInitNoGrow 65489 = (none, sInitNoGrow) := by
  have h := c8_zero_and_oom_return_null sInitNoGrow 65489 (by decide) (by decide)
  exact ⟨h.1, h.2 (by decide)⟩

/-- C9: falsified on the code.  The single free block written by mm_init has
size CHUNKSIZE - 6 * WSIZE = 65488 in both header and footer, and 65488 is
congruent to 16 modulo 32, so the size field is not a multiple of the minimum
block size 32 even in the very first reachable state. -/
theorem c9_init_free_block_size_not_multiple_of_32 :
    GET_SIZE sInitNoGrow.mem sInitNoGrow.heap_start = 65488 ∧
    GET_SIZE sInitNoGrow.mem (sInitNoGrow.heap_end - WSIZE) = 65488 ∧
    65488 % 32 = 16 := by
  decide

/-- C10 counterexample: on the corrupted heap s10 whose first block header
encodes size 0 (with a matching tag at the footer position), mm_check does not
take its process-terminating mismatch branch: it stops the walk at the size-0
block and returns normally, against the claim that a zero-size block aborts
the process. -/
theorem c10_zero_size_returns_normally :
    mm_check s10 = CheckResult.sizeZero (SEG + 32) ∧
    (mm_check s10).isPanic = false ∧
    SIZE (GET s10.mem (SEG + 32)) = 0 := by
  decide

/-- C10 amended: when the checker walk reaches a block whose header encodes
size 0 and whose footer position carries a tag with the same size and status,
it prints a warning, aborts the traversal and returns normally; the process is
terminated only by a header/footer mismatch. -/
theorem c10_check_zero_size_warns_and_returns (s : MM) (p f : Nat)
    (h1 : p < s.heap_end)
    (h2 : SIZE (GET s.mem p) = 0)
    (h3 : SIZE (GET s.mem (p + SIZE (GET s.mem p) - WSIZE)) = SIZE (GET s.mem p))
    (h4 : STATUS (GET s.mem (p + SIZE (GET s.mem p) - WSIZE)) = STATUS (GET s.mem p)) :
    mm_check_loop s (f + 1) p = CheckResult.sizeZero p ∧
    (mm_check_loop s (f + 1) p).isPanic = false := by
  have hne : ¬(SIZE (GET s.mem p) ≠ SIZE (GET s.mem (p + SIZE (GET s.mem p) - WSIZE)) ∨
      STATUS (GET s.mem p) ≠ STATUS (GET s.mem (p + SIZE (GET s.mem p) - WSIZE))) := by
    push_neg
    exact ⟨h3.symm, h4.symm⟩
  have hloop : mm_check_loop s (f + 1) p = CheckResult.sizeZero p := by
    simp only [mm_check_loop, if_pos h1, if_neg hne, if_pos h2]
  exact ⟨hloop, by rw [hloop]; rfl⟩

/-- Witness for the amended C10: the corrupted heap s10 satisfies the
hypotheses at p = SEG + 32, and the walk returns the normal size-0 outcome. -/
theorem c10_check_zero_size_warns_and_returns_witness :
    (SEG + 32 < s10.heap_end ∧ SIZE (GET s10.mem (SEG + 32)) = 0) ∧
    mm_check_loop s10 (436 + 1) (SEG + 32) = CheckResult.sizeZero (SEG + 32) := by
  refine ⟨⟨by decide, by decide⟩, ?_⟩
  exact (c10_check_zero_size_warns_and_returns s10 (SEG + 32) 436 (by decide)
    (by decide) (by decide) (by decide)).1

end Memmgr
